import Mathlib

/-!
# The Parcel read table of the binder fuzzer

A shallow embedding of `libs/binder/fuzzer/binder.cpp`: the two macros
`PARCEL_READ_WITH_STATUS` / `PARCEL_READ_NO_STATUS`, the hand-written lambdas and the
table `BINDER_PARCEL_READ_FUNCTIONS`.

The `android::Parcel` the lambdas call into is external to the file.  It is a parameter
of every definition: a state type `σ`, a type `V` of decoded values and one function
answering each call (or not returning, when the buffer aborts the process).  A lambda is
a state-passing function that produces the sequence of things it does that can be seen
from outside: the lines it logs and the calls it makes into the buffer.
-/

namespace BinderFuzzer

/-! ## Data model -/

/-- The type `uint8_t` of the scalar byte handed to every lambda. -/
abbrev uint8_t := Fin 256

/-- The type `android::status_t`, a signed integer. -/
abbrev status_t := Int

/-- One operand streamed into a `FUZZ_LOG()` statement with `<<`, kept with its C++ type
rather than rendered. -/
inductive Piece where
  /-- a string literal -/
  | lit (s : String)
  /-- a `status_t` -/
  | status (s : status_t)
  /-- a `uint8_t` -/
  | byte (b : uint8_t)
  /-- a `std::string` -/
  | str (s : String)
  /-- a `const char*` pointing at a NUL-terminated string -/
  | cstr (s : String)
  /-- a `bool` -/
  | bool (b : Bool)
  /-- a `const void*`, as an address (0 for `nullptr`) -/
  | ptr (r : Nat)
  deriving DecidableEq, Repr

/-- A line of the diagnostic log: the tag and the operands streamed into it. -/
structure LogLine where
  tag : String
  items : List Piece
  deriving DecidableEq, Repr

/-- A call of a `Parcel` method made by the table, with the arguments it is given.

* `noStatus FUN` is `p.FUN()`;
* `withStatus T FUN` is `p.FUN(&t)` for a value-initialised `T t`, the overload of `FUN`
  being chosen by `T`;
* `read outData len` is `p.read(data.data(), len)`, `outData` being the content of the
  vector `data` the pointer refers to;
* `enforceInterface name` is `p.enforceInterface(String16(name))`;
* `checkInterface` is `p.checkInterface(new BBinder())`;
* `readBlob len` is `p.readBlob(len, &blob)` for a default-constructed `ReadableBlob`. -/
inductive Call where
  | noStatus (FUN : String)
  | withStatus (T FUN : String)
  | setDataPosition (pos : Nat)
  | enforceInterface (name : String)
  | checkInterface
  | read (outData : List uint8_t) (len : Nat)
  | readInplace (len : Nat)
  | readCString
  | readBlob (len : Nat)
  deriving DecidableEq, Repr

/-- What a call gives back when it returns, `V` being the type of decoded values
(returned or stored through the out-pointer):

* `T t = p.FUN()`: the value;
* `status_t status = p.FUN(&t)`: the status and what `t` holds afterwards;
* `setDataPosition`: nothing;
* `enforceInterface`, `checkInterface`: a `bool`;
* `read`: the status and what the scratch vector holds afterwards;
* `readInplace`: a `const void*`, as an address (0 for `nullptr`);
* `readCString`: a `const char*`, `none` for `nullptr`;
* `readBlob`: the status and the blob. -/
def Call.Ret (V : Type) : Call → Type
  | .noStatus _ => V
  | .withStatus _ _ => status_t × V
  | .setDataPosition _ => Unit
  | .enforceInterface _ => Bool
  | .checkInterface => Bool
  | .read _ _ => status_t × List uint8_t
  | .readInplace _ => Nat
  | .readCString => Option String
  | .readBlob _ => status_t × V

/-- The external buffer-under-test: for a call and the state of the buffer, the reply and
the state afterwards, or `none` when the call does not return (the buffer aborts the
process). -/
structure Parcel (σ V : Type) where
  invoke : (c : Call) → σ → Option (Call.Ret V c × σ)

/-- What a lambda does that is visible from outside it. -/
inductive Event where
  | log (l : LogLine)
  | call (c : Call)
  deriving DecidableEq, Repr

/-- A piece of lambda body: from the state of the buffer, the events it produces, and its
result with the state of the buffer afterwards, `none` when a call into the buffer did
not return. -/
def Fuzz (σ α : Type) : Type := σ → List Event × Option (α × σ)

/-- Returning without an effect. -/
def Fuzz.pure {σ α : Type} (a : α) : Fuzz σ α := fun s => ([], some (a, s))

/-- Sequencing of statements: the second runs only if the first returned, on the state the
first left, and its events follow those of the first. -/
def Fuzz.bind {σ α β : Type} (m : Fuzz σ α) (f : α → Fuzz σ β) : Fuzz σ β := fun s =>
  match m s with
  | (t, none) => (t, none)
  | (t, some (a, s1)) => (t ++ (f a s1).1, (f a s1).2)

instance {σ : Type} : Monad (Fuzz σ) where
  pure := Fuzz.pure
  bind := Fuzz.bind

/-- The tag of the file: `#define FUZZ_LOG_TAG "binder"`. -/
def FUZZ_LOG_TAG : String := "binder"

/-- Modelled from the spec: the macro `FUZZ_LOG()` of `util.h`, which is not part of the
sources at hand.  By the spec the output is "a diagnostic log stream (tag-prefixed
lines)" and a statement `FUZZ_LOG() << a << b;` emits a single line; the line is kept as
the tag and the operands streamed into it. -/
def FUZZ_LOG {σ : Type} (items : List Piece) : Fuzz σ Unit := fun s =>
  ([Event.log ⟨FUZZ_LOG_TAG, items⟩], some ((), s))

/-- A method call `p.m(args)`: the call is an event, and its reply is the buffer's. -/
def Parcel.call {σ V : Type} (p : Parcel σ V) (c : Call) : Fuzz σ (Call.Ret V c) := fun s =>
  ([Event.call c], p.invoke c s)

/-- Modelled from the spec: the type `ParcelRead<::android::Parcel>` of the entries of the
table, declared in a header that is not part of the sources at hand; by the spec every
entry has the "uniform signature `(buffer, one scalar byte) -> void`", which is also the
signature of every lambda of the file. -/
abbrev ParcelRead (σ V : Type) : Type := Parcel σ V → uint8_t → Fuzz σ Unit

/-! ## The macros -/

/-- The macro `PARCEL_READ_WITH_STATUS(T, FUN)`; `#T` and `#FUN` are the arguments as
strings, and adjacent string literals are one literal. -/
def PARCEL_READ_WITH_STATUS {σ V : Type} (T FUN : String) : ParcelRead σ V :=
  fun p _data => do
    FUZZ_LOG [.lit ("about to read " ++ T ++ " using " ++ FUN ++ " with status")]
    let (status, _t) ← p.call (.withStatus T FUN)
    FUZZ_LOG [.lit (T ++ " status: "), .status status]

/-- The macro `PARCEL_READ_NO_STATUS(T, FUN)`. -/
def PARCEL_READ_NO_STATUS {σ V : Type} (T FUN : String) : ParcelRead σ V :=
  fun p _data => do
    FUZZ_LOG [.lit ("about to read " ++ T ++ " using " ++ FUN ++ " with no status")]
    let _t ← p.call (.noStatus FUN)
    FUZZ_LOG [.lit (T ++ " done ")]

/-- The macro `PARCEL_READ_OPT_STATUS(T, FUN)`: two entries of the table. -/
def PARCEL_READ_OPT_STATUS {σ V : Type} (T FUN : String) : List (ParcelRead σ V) :=
  [PARCEL_READ_WITH_STATUS T FUN, PARCEL_READ_NO_STATUS T FUN]

/-! ## The hand-written lambdas -/

/-- The lambda of lines 48-52. -/
def setDataPositionRead {σ V : Type} : ParcelRead σ V :=
  fun p pos => do
    FUZZ_LOG [.lit "about to setDataPosition: ", .byte pos]
    p.call (.setDataPosition pos.val)
    FUZZ_LOG [.lit "setDataPosition done"]

/-- The lambda of lines 55-66; `android` tells whether `__ANDROID__` is defined.
The constructor `std::string interface(len, 'a')` makes `len` copies of `'a'`. -/
def enforceInterfaceRead {σ V : Type} (android : Bool) : ParcelRead σ V :=
  fun p len =>
    if android then do
      let interface : String := String.mk (List.replicate len.val 'a')
      FUZZ_LOG [.lit "about to enforceInterface: ", .str interface]
      let b ← p.call (.enforceInterface interface)
      FUZZ_LOG [.lit "enforced interface: ", .bool b]
    else do
      FUZZ_LOG [.lit "skipping enforceInterface"]

/-- The lambda of lines 67-76. -/
def checkInterfaceRead {σ V : Type} (android : Bool) : ParcelRead σ V :=
  fun p _len =>
    if android then do
      FUZZ_LOG [.lit "about to checkInterface"]
      let b ← p.call .checkInterface
      FUZZ_LOG [.lit "checked interface: ", .bool b]
    else do
      FUZZ_LOG [.lit "skipping checkInterface"]

/-- The lambda of lines 79-84; `std::vector<uint8_t> data(len)` holds `len` zero bytes. -/
def readVoidRead {σ V : Type} : ParcelRead σ V :=
  fun p len => do
    FUZZ_LOG [.lit "about to read void*"]
    let data : List uint8_t := List.replicate len.val 0
    let (status, _data) ← p.call (.read data len.val)
    FUZZ_LOG [.lit "read status: ", .status status]

/-- The lambda of lines 85-89. -/
def readInplaceRead {σ V : Type} : ParcelRead σ V :=
  fun p len => do
    FUZZ_LOG [.lit "about to readInplace"]
    let r ← p.call (.readInplace len.val)
    FUZZ_LOG [.lit "readInplace done. pointer: ", .ptr r]

/-- The lambda of lines 103-107. -/
def readCStringRead {σ V : Type} : ParcelRead σ V :=
  fun p _data => do
    FUZZ_LOG [.lit "about to read c-str"]
    let str ← p.call .readCString
    FUZZ_LOG [.lit "read c-str: ", .cstr (match str with | some s => s | none => "<empty string>")]

/-- The lambda of lines 161-166. -/
def readBlobRead {σ V : Type} : ParcelRead σ V :=
  fun p len => do
    FUZZ_LOG [.lit "about to readBlob"]
    let (status, _blob) ← p.call (.readBlob len.val)
    FUZZ_LOG [.lit "readBlob status: ", .status status]

/-! ## The table -/

/-- The table `BINDER_PARCEL_READ_FUNCTIONS`, in the order of the source; `android` tells
whether `__ANDROID__` is defined. -/
def BINDER_PARCEL_READ_FUNCTIONS {σ V : Type} (android : Bool) : List (ParcelRead σ V) :=
  [ PARCEL_READ_NO_STATUS "size_t" "dataSize",
    PARCEL_READ_NO_STATUS "size_t" "dataAvail",
    PARCEL_READ_NO_STATUS "size_t" "dataPosition",
    PARCEL_READ_NO_STATUS "size_t" "dataCapacity",
    setDataPositionRead,
    PARCEL_READ_NO_STATUS "size_t" "allowFds",
    PARCEL_READ_NO_STATUS "size_t" "hasFileDescriptors",
    enforceInterfaceRead android,
    checkInterfaceRead android,
    PARCEL_READ_NO_STATUS "size_t" "objectsCount",
    PARCEL_READ_NO_STATUS "status_t" "errorCheck",
    readVoidRead,
    readInplaceRead ]
  ++ PARCEL_READ_OPT_STATUS "int32_t" "readInt32"
  ++ PARCEL_READ_OPT_STATUS "uint32_t" "readUint32"
  ++ PARCEL_READ_OPT_STATUS "int64_t" "readInt64"
  ++ PARCEL_READ_OPT_STATUS "uint64_t" "readUint64"
  ++ PARCEL_READ_OPT_STATUS "float" "readFloat"
  ++ PARCEL_READ_OPT_STATUS "double" "readDouble"
  ++ PARCEL_READ_OPT_STATUS "intptr_t" "readIntPtr"
  ++ PARCEL_READ_OPT_STATUS "bool" "readBool"
  ++ PARCEL_READ_OPT_STATUS "char16_t" "readChar"
  ++ PARCEL_READ_OPT_STATUS "int8_t" "readByte"
  ++ [ PARCEL_READ_WITH_STATUS "std::string" "readUtf8FromUtf16",
       PARCEL_READ_WITH_STATUS "std::unique_ptr<std::string>" "readUtf8FromUtf16",
       readCStringRead ]
  ++ PARCEL_READ_OPT_STATUS "android::String8" "readString8"
  ++ PARCEL_READ_OPT_STATUS "android::String16" "readString16"
  ++ [ PARCEL_READ_WITH_STATUS "std::unique_ptr<android::String16>" "readString16",
       PARCEL_READ_WITH_STATUS "android::sp<android::IBinder>" "readStrongBinder",
       PARCEL_READ_WITH_STATUS "android::sp<android::IBinder>" "readNullableStrongBinder",
       PARCEL_READ_NO_STATUS "int32_t" "readExceptionCode",
       PARCEL_READ_NO_STATUS "int" "readFileDescriptor",
       PARCEL_READ_NO_STATUS "int" "readParcelFileDescriptor",
       PARCEL_READ_WITH_STATUS "android::base::unique_fd" "readUniqueFileDescriptor",
       readBlobRead,
       PARCEL_READ_NO_STATUS "uid_t" "readCallingWorkSourceUid",
       PARCEL_READ_NO_STATUS "size_t" "getBlobAshmemSize",
       PARCEL_READ_NO_STATUS "size_t" "getOpenAshmemSize" ]

/-! ## Observations -/

/-- The log lines among the events, in order. -/
def linesOf : List Event → List LogLine
  | [] => []
  | .log l :: es => l :: linesOf es
  | .call _ :: es => linesOf es

/-- The calls into the buffer among the events, in order. -/
def callsOf : List Event → List Call
  | [] => []
  | .log _ :: es => callsOf es
  | .call c :: es => c :: callsOf es

/-- The `status_t` a call returned, for the methods that return one. -/
def Call.status? {V : Type} : (c : Call) → Call.Ret V c → Option status_t
  | .withStatus _ _, r => some r.1
  | .read _ _, r => some r.1
  | .readBlob _, r => some r.1
  | _, _ => none

/-- The `bool` a call returned, for the methods that return one. -/
def Call.verdict? {V : Type} : (c : Call) → Call.Ret V c → Option Bool
  | .enforceInterface _, r => some r
  | .checkInterface, r => some r
  | _, _ => none

/-- The largest length or position a call asks of the buffer: the position of
`setDataPosition`, the byte counts of `read` (the scratch vector and the count),
`readInplace` and `readBlob`, the length of the name of `enforceInterface`. -/
def Call.requested : Call → Nat
  | .setDataPosition pos => pos
  | .enforceInterface name => name.length
  | .read outData len => max outData.length len
  | .readInplace len => len
  | .readBlob len => len
  | _ => 0

/-- What a buffer in state `s` lets see of the status of call `c`: `none` when the call
does not return, else the `status_t` returned, if the method returns one. -/
def Parcel.statusOf {σ V : Type} (p : Parcel σ V) (c : Call) (s : σ) : Option (Option status_t) :=
  (p.invoke c s).map (fun r => Call.status? c r.1)

/-- The same for the `bool` of `enforceInterface` and `checkInterface`. -/
def Parcel.verdictOf {σ V : Type} (p : Parcel σ V) (c : Call) (s : σ) : Option (Option Bool) :=
  (p.invoke c s).map (fun r => Call.verdict? c r.1)

/-- The string literal a line opens with, if it opens with one. -/
def firstLiteral : Option LogLine → Option String
  | some ⟨_, .lit m :: _⟩ => some m
  | _ => none

/-- The literals that open the first line of each entry of the table, in the order of the
table (a list the proofs compare the table with). -/
def firstLiterals (android : Bool) : List String :=
  [ "about to read size_t using dataSize with no status",
    "about to read size_t using dataAvail with no status",
    "about to read size_t using dataPosition with no status",
    "about to read size_t using dataCapacity with no status",
    "about to setDataPosition: ",
    "about to read size_t using allowFds with no status",
    "about to read size_t using hasFileDescriptors with no status",
    if android then "about to enforceInterface: " else "skipping enforceInterface",
    if android then "about to checkInterface" else "skipping checkInterface",
    "about to read size_t using objectsCount with no status",
    "about to read status_t using errorCheck with no status",
    "about to read void*",
    "about to readInplace",
    "about to read int32_t using readInt32 with status",
    "about to read int32_t using readInt32 with no status",
    "about to read uint32_t using readUint32 with status",
    "about to read uint32_t using readUint32 with no status",
    "about to read int64_t using readInt64 with status",
    "about to read int64_t using readInt64 with no status",
    "about to read uint64_t using readUint64 with status",
    "about to read uint64_t using readUint64 with no status",
    "about to read float using readFloat with status",
    "about to read float using readFloat with no status",
    "about to read double using readDouble with status",
    "about to read double using readDouble with no status",
    "about to read intptr_t using readIntPtr with status",
    "about to read intptr_t using readIntPtr with no status",
    "about to read bool using readBool with status",
    "about to read bool using readBool with no status",
    "about to read char16_t using readChar with status",
    "about to read char16_t using readChar with no status",
    "about to read int8_t using readByte with status",
    "about to read int8_t using readByte with no status",
    "about to read std::string using readUtf8FromUtf16 with status",
    "about to read std::unique_ptr<std::string> using readUtf8FromUtf16 with status",
    "about to read c-str",
    "about to read android::String8 using readString8 with status",
    "about to read android::String8 using readString8 with no status",
    "about to read android::String16 using readString16 with status",
    "about to read android::String16 using readString16 with no status",
    "about to read std::unique_ptr<android::String16> using readString16 with status",
    "about to read android::sp<android::IBinder> using readStrongBinder with status",
    "about to read android::sp<android::IBinder> using readNullableStrongBinder with status",
    "about to read int32_t using readExceptionCode with no status",
    "about to read int using readFileDescriptor with no status",
    "about to read int using readParcelFileDescriptor with no status",
    "about to read android::base::unique_fd using readUniqueFileDescriptor with status",
    "about to readBlob",
    "about to read uid_t using readCallingWorkSourceUid with no status",
    "about to read size_t using getBlobAshmemSize with no status",
    "about to read size_t using getOpenAshmemSize with no status" ]

/-! ## A buffer to run the table on -/

/-- State of the example buffer: the payload bytes and the read cursor. -/
structure Sample where
  data : List uint8_t
  pos : Nat
  deriving DecidableEq, Repr

/-- The bytes before the first zero byte, as characters, when there is a zero byte. -/
def cstringOf : List uint8_t → Option (List Char)
  | [] => none
  | b :: bs =>
    if b.val = 0 then some []
    else match cstringOf bs with
      | some cs => some (Char.ofNat b.val :: cs)
      | none => none

/-- An example of a buffer, to run the table on concrete inputs (the real `Parcel` is not
part of the file): it holds payload bytes and a cursor, every method returns, reads past
the end of the payload report the status -61, `readCString` gives the bytes from the
cursor to the first zero byte, `enforceInterface` holds of the names as long as the
payload and `checkInterface` of every payload but the empty one. -/
def sampleParcel : Parcel Sample Nat where
  invoke c s :=
    match c with
    | .noStatus FUN =>
      some (if FUN = "dataSize" then s.data.length
            else if FUN = "dataPosition" then s.pos
            else s.data.length - s.pos, s)
    | .withStatus _ _ =>
      match s.data.drop s.pos with
      | [] => some ((-61, 0), s)
      | b :: _ => some ((0, b.val), { s with pos := s.pos + 1 })
    | .setDataPosition pos => some ((), { s with pos := pos })
    | .enforceInterface name => some (decide (name.length = s.data.length), s)
    | .checkInterface => some (!s.data.isEmpty, s)
    | .read outData len =>
      if s.pos + len ≤ s.data.length
      then some ((0, (s.data.drop s.pos).take len), { s with pos := s.pos + len })
      else some ((-61, outData), s)
    | .readInplace len =>
      if s.pos + len ≤ s.data.length
      then some ((4096 + s.pos : Nat), { s with pos := s.pos + len })
      else some ((0 : Nat), s)
    | .readCString =>
      some ((cstringOf (s.data.drop s.pos)).map String.mk, s)
    | .readBlob len =>
      if s.pos + len ≤ s.data.length
      then some ((0, len), { s with pos := s.pos + len })
      else some ((-61, 0), s)

/-! ## Evaluation of the lambdas -/

/-- The common course of the lambdas that call into the buffer: a line, the call, and a
line made from the reply if the call returns. -/
def probe {σ V : Type} (p : Parcel σ V) (l1 : List Piece) (c : Call)
    (l2 : Call.Ret V c → List Piece) : Fuzz σ Unit := fun s =>
  match p.invoke c s with
  | none => ([.log ⟨FUZZ_LOG_TAG, l1⟩, .call c], none)
  | some (r, s1) => ([.log ⟨FUZZ_LOG_TAG, l1⟩, .call c, .log ⟨FUZZ_LOG_TAG, l2 r⟩], some ((), s1))

/-- The course of the lambdas that only log a line. -/
def skip {σ : Type} (l : List Piece) : Fuzz σ Unit := fun s =>
  ([.log ⟨FUZZ_LOG_TAG, l⟩], some ((), s))

section Evaluation
variable {σ V : Type}

theorem seq_eq_probe (p : Parcel σ V) (l1 : List Piece) (c : Call)
    (k : Call.Ret V c → Fuzz σ Unit) (l2 : Call.Ret V c → List Piece)
    (hk : ∀ r, k r = FUZZ_LOG (l2 r)) :
    (FUZZ_LOG l1 >>= fun _ => p.call c >>= k) = probe p l1 c l2 := by
  funext s
  show Fuzz.bind (FUZZ_LOG l1) (fun _ => Fuzz.bind (p.call c) k) s = _
  simp only [Fuzz.bind, FUZZ_LOG, Parcel.call, probe]
  cases h : p.invoke c s with
  | none => rfl
  | some x =>
    obtain ⟨r, s1⟩ := x
    simp [hk r, FUZZ_LOG]

theorem PARCEL_READ_WITH_STATUS_eq (T FUN : String) (p : Parcel σ V) (d : uint8_t) :
    PARCEL_READ_WITH_STATUS T FUN p d =
      probe p [.lit ("about to read " ++ T ++ " using " ++ FUN ++ " with status")]
        (.withStatus T FUN) (fun r => [.lit (T ++ " status: "), .status r.1]) :=
  seq_eq_probe p _ _ _ _ (fun _ => rfl)

theorem PARCEL_READ_NO_STATUS_eq (T FUN : String) (p : Parcel σ V) (d : uint8_t) :
    PARCEL_READ_NO_STATUS T FUN p d =
      probe p [.lit ("about to read " ++ T ++ " using " ++ FUN ++ " with no status")]
        (.noStatus FUN) (fun _ => [.lit (T ++ " done ")]) :=
  seq_eq_probe p _ _ _ _ (fun _ => rfl)

theorem setDataPositionRead_eq (p : Parcel σ V) (pos : uint8_t) :
    setDataPositionRead p pos =
      probe p [.lit "about to setDataPosition: ", .byte pos]
        (.setDataPosition pos.val) (fun _ => [.lit "setDataPosition done"]) :=
  seq_eq_probe p _ _ _ _ (fun _ => rfl)

theorem enforceInterfaceRead_true_eq (p : Parcel σ V) (len : uint8_t) :
    enforceInterfaceRead true p len =
      probe p [.lit "about to enforceInterface: ", .str (String.mk (List.replicate len.val 'a'))]
        (.enforceInterface (String.mk (List.replicate len.val 'a')))
        (fun b => [.lit "enforced interface: ", .bool b]) :=
  seq_eq_probe p _ _ _ _ (fun _ => rfl)

theorem enforceInterfaceRead_false_eq (p : Parcel σ V) (len : uint8_t) :
    enforceInterfaceRead false p len = skip [.lit "skipping enforceInterface"] := rfl

theorem checkInterfaceRead_true_eq (p : Parcel σ V) (len : uint8_t) :
    checkInterfaceRead true p len =
      probe p [.lit "about to checkInterface"] .checkInterface
        (fun b => [.lit "checked interface: ", .bool b]) :=
  seq_eq_probe p _ _ _ _ (fun _ => rfl)

theorem checkInterfaceRead_false_eq (p : Parcel σ V) (len : uint8_t) :
    checkInterfaceRead false p len = skip [.lit "skipping checkInterface"] := rfl

theorem readVoidRead_eq (p : Parcel σ V) (len : uint8_t) :
    readVoidRead p len =
      probe p [.lit "about to read void*"] (.read (List.replicate len.val 0) len.val)
        (fun r => [.lit "read status: ", .status r.1]) :=
  seq_eq_probe p _ _ _ _ (fun _ => rfl)

theorem readInplaceRead_eq (p : Parcel σ V) (len : uint8_t) :
    readInplaceRead p len =
      probe p [.lit "about to readInplace"] (.readInplace len.val)
        (fun r => [.lit "readInplace done. pointer: ", .ptr r]) :=
  seq_eq_probe p _ _ _ _ (fun _ => rfl)

theorem readCStringRead_eq (p : Parcel σ V) (d : uint8_t) :
    readCStringRead p d =
      probe p [.lit "about to read c-str"] .readCString
        (fun str => [.lit "read c-str: ",
          .cstr (match str with | some s => s | none => "<empty string>")]) :=
  seq_eq_probe p _ _ _ _ (fun _ => rfl)

theorem readBlobRead_eq (p : Parcel σ V) (len : uint8_t) :
    readBlobRead p len =
      probe p [.lit "about to readBlob"] (.readBlob len.val)
        (fun r => [.lit "readBlob status: ", .status r.1]) :=
  seq_eq_probe p _ _ _ _ (fun _ => rfl)

theorem probe_events (p : Parcel σ V) (l1 : List Piece) (c : Call)
    (l2 : Call.Ret V c → List Piece) (s : σ) :
    (probe p l1 c l2 s).1 =
      match p.invoke c s with
      | none => [.log ⟨FUZZ_LOG_TAG, l1⟩, .call c]
      | some (r, _) => [.log ⟨FUZZ_LOG_TAG, l1⟩, .call c, .log ⟨FUZZ_LOG_TAG, l2 r⟩] := by
  unfold probe
  cases p.invoke c s <;> rfl

theorem probe_calls (p : Parcel σ V) (l1 : List Piece) (c : Call)
    (l2 : Call.Ret V c → List Piece) (s : σ) :
    callsOf (probe p l1 c l2 s).1 = [c] := by
  unfold probe
  cases p.invoke c s <;> rfl

theorem probe_lines (p : Parcel σ V) (l1 : List Piece) (c : Call)
    (l2 : Call.Ret V c → List Piece) (s : σ) :
    linesOf (probe p l1 c l2 s).1 =
      match p.invoke c s with
      | none => [⟨FUZZ_LOG_TAG, l1⟩]
      | some (r, _) => [⟨FUZZ_LOG_TAG, l1⟩, ⟨FUZZ_LOG_TAG, l2 r⟩] := by
  unfold probe
  cases p.invoke c s <;> rfl

theorem probe_exit (p : Parcel σ V) (l1 : List Piece) (c : Call)
    (l2 : Call.Ret V c → List Piece) (s : σ) :
    (probe p l1 c l2 s).2 = (p.invoke c s).map (fun x => ((), x.2)) := by
  unfold probe
  cases p.invoke c s <;> rfl

theorem skip_calls (l : List Piece) (s : σ) : callsOf (skip l s).1 = [] := rfl

theorem skip_lines (l : List Piece) (s : σ) : linesOf (skip l s).1 = [⟨FUZZ_LOG_TAG, l⟩] := rfl

theorem skip_exit (l : List Piece) (s : σ) : (skip l s).2 = some ((), s) := rfl

theorem probe_of_returns (p : Parcel σ V) (l1 : List Piece) (c : Call)
    (l2 : Call.Ret V c → List Piece) (s s1 : σ) (r : Call.Ret V c)
    (h : p.invoke c s = some (r, s1)) :
    probe p l1 c l2 s =
      ([.log ⟨FUZZ_LOG_TAG, l1⟩, .call c, .log ⟨FUZZ_LOG_TAG, l2 r⟩], some ((), s1)) := by
  unfold probe
  rw [h]

theorem probe_lines_agree (p1 p2 : Parcel σ V) (l1 : List Piece) (c : Call)
    (l2 : Call.Ret V c → List Piece) (s1 s2 : σ)
    (hst : p1.statusOf c s1 = p2.statusOf c s2) (hvd : p1.verdictOf c s1 = p2.verdictOf c s2)
    (hl2 : ∀ r1 r2 : Call.Ret V c, Call.status? c r1 = Call.status? c r2 →
      Call.verdict? c r1 = Call.verdict? c r2 → l2 r1 = l2 r2) :
    linesOf (probe p1 l1 c l2 s1).1 = linesOf (probe p2 l1 c l2 s2).1 := by
  rw [probe_lines, probe_lines]
  unfold Parcel.statusOf at hst
  unfold Parcel.verdictOf at hvd
  rcases h1 : p1.invoke c s1 with _ | ⟨r1, t1⟩ <;>
    rcases h2 : p2.invoke c s2 with _ | ⟨r2, t2⟩ <;>
    rw [h1, h2] at hst hvd
  · exact absurd hst (by simp)
  · exact absurd hst (by simp)
  · simp only [Option.map_some', Option.some.injEq] at hst hvd
    simp only [hl2 r1 r2 hst hvd]

/-- The table, entry by entry. -/
theorem table_eq (android : Bool) :
    (BINDER_PARCEL_READ_FUNCTIONS android : List (ParcelRead σ V)) =
    [ PARCEL_READ_NO_STATUS "size_t" "dataSize",
      PARCEL_READ_NO_STATUS "size_t" "dataAvail",
      PARCEL_READ_NO_STATUS "size_t" "dataPosition",
      PARCEL_READ_NO_STATUS "size_t" "dataCapacity",
      setDataPositionRead,
      PARCEL_READ_NO_STATUS "size_t" "allowFds",
      PARCEL_READ_NO_STATUS "size_t" "hasFileDescriptors",
      enforceInterfaceRead android,
      checkInterfaceRead android,
      PARCEL_READ_NO_STATUS "size_t" "objectsCount",
      PARCEL_READ_NO_STATUS "status_t" "errorCheck",
      readVoidRead,
      readInplaceRead,
      PARCEL_READ_WITH_STATUS "int32_t" "readInt32",
      PARCEL_READ_NO_STATUS "int32_t" "readInt32",
      PARCEL_READ_WITH_STATUS "uint32_t" "readUint32",
      PARCEL_READ_NO_STATUS "uint32_t" "readUint32",
      PARCEL_READ_WITH_STATUS "int64_t" "readInt64",
      PARCEL_READ_NO_STATUS "int64_t" "readInt64",
      PARCEL_READ_WITH_STATUS "uint64_t" "readUint64",
      PARCEL_READ_NO_STATUS "uint64_t" "readUint64",
      PARCEL_READ_WITH_STATUS "float" "readFloat",
      PARCEL_READ_NO_STATUS "float" "readFloat",
      PARCEL_READ_WITH_STATUS "double" "readDouble",
      PARCEL_READ_NO_STATUS "double" "readDouble",
      PARCEL_READ_WITH_STATUS "intptr_t" "readIntPtr",
      PARCEL_READ_NO_STATUS "intptr_t" "readIntPtr",
      PARCEL_READ_WITH_STATUS "bool" "readBool",
      PARCEL_READ_NO_STATUS "bool" "readBool",
      PARCEL_READ_WITH_STATUS "char16_t" "readChar",
      PARCEL_READ_NO_STATUS "char16_t" "readChar",
      PARCEL_READ_WITH_STATUS "int8_t" "readByte",
      PARCEL_READ_NO_STATUS "int8_t" "readByte",
      PARCEL_READ_WITH_STATUS "std::string" "readUtf8FromUtf16",
      PARCEL_READ_WITH_STATUS "std::unique_ptr<std::string>" "readUtf8FromUtf16",
      readCStringRead,
      PARCEL_READ_WITH_STATUS "android::String8" "readString8",
      PARCEL_READ_NO_STATUS "android::String8" "readString8",
      PARCEL_READ_WITH_STATUS "android::String16" "readString16",
      PARCEL_READ_NO_STATUS "android::String16" "readString16",
      PARCEL_READ_WITH_STATUS "std::unique_ptr<android::String16>" "readString16",
      PARCEL_READ_WITH_STATUS "android::sp<android::IBinder>" "readStrongBinder",
      PARCEL_READ_WITH_STATUS "android::sp<android::IBinder>" "readNullableStrongBinder",
      PARCEL_READ_NO_STATUS "int32_t" "readExceptionCode",
      PARCEL_READ_NO_STATUS "int" "readFileDescriptor",
      PARCEL_READ_NO_STATUS "int" "readParcelFileDescriptor",
      PARCEL_READ_WITH_STATUS "android::base::unique_fd" "readUniqueFileDescriptor",
      readBlobRead,
      PARCEL_READ_NO_STATUS "uid_t" "readCallingWorkSourceUid",
      PARCEL_READ_NO_STATUS "size_t" "getBlobAshmemSize",
      PARCEL_READ_NO_STATUS "size_t" "getOpenAshmemSize" ] := by
  simp only [BINDER_PARCEL_READ_FUNCTIONS, PARCEL_READ_OPT_STATUS, List.cons_append,
    List.nil_append]

theorem table_length (android : Bool) :
    (BINDER_PARCEL_READ_FUNCTIONS android : List (ParcelRead σ V)).length = 51 := by
  rw [table_eq]; rfl

end Evaluation

/-! ## Quantifying over the entries of a list by index -/

theorem forall_getElem?_nil {α : Type} (Q : Nat → α → Prop) :
    (∀ i x, ([] : List α)[i]? = some x → Q i x) ↔ True := by
  simp

theorem forall_getElem?_cons {α : Type} (a : α) (l : List α) (Q : Nat → α → Prop) :
    (∀ i x, (a :: l)[i]? = some x → Q i x) ↔
      (Q 0 a ∧ ∀ i x, l[i]? = some x → Q (i + 1) x) := by
  constructor
  · intro h
    exact ⟨h 0 a (by simp), fun i x hx => h (i + 1) x (by simpa using hx)⟩
  · rintro ⟨h0, hs⟩ i x hx
    cases i with
    | zero =>
      simp only [List.getElem?_cons_zero, Option.some.injEq] at hx
      exact hx ▸ h0
    | succ n => exact hs n x (by simpa using hx)

/-! ## The first line of every entry -/

section FirstLine
variable {σ V : Type}

theorem probe_first (p : Parcel σ V) (m : String) (l1 : List Piece) (c : Call)
    (l2 : Call.Ret V c → List Piece) (s : σ) :
    firstLiteral (linesOf (probe p (.lit m :: l1) c l2 s).1).head? = some m := by
  rw [probe_lines]
  cases p.invoke c s <;> rfl

theorem probe_returned (p : Parcel σ V) (l1 : List Piece) (c : Call)
    (l2 : Call.Ret V c → List Piece) (s : σ) (hret : (probe p l1 c l2 s).2.isSome = true) :
    ∃ (r : Call.Ret V c) (t : σ), p.invoke c s = some (r, t) ∧
      (probe p l1 c l2 s).1 = [.log ⟨"binder", l1⟩, .call c, .log ⟨"binder", l2 r⟩] := by
  rw [probe_exit] at hret
  rcases h : p.invoke c s with _ | ⟨r, t⟩
  · rw [h] at hret
    exact absurd hret (by simp)
  · exact ⟨r, t, rfl, by rw [probe_events, h]; rfl⟩

theorem firstLiterals_nodup (android : Bool) : (firstLiterals android).Nodup := by
  cases android <;> decide

theorem first_literal_of_entry (android : Bool) (i : Nat) (op : ParcelRead σ V)
    (h : (BINDER_PARCEL_READ_FUNCTIONS android)[i]? = some op)
    (p : Parcel σ V) (s : σ) (d : uint8_t) :
    firstLiteral (linesOf (op p d s).1).head? = (firstLiterals android)[i]? := by
  have key : ∀ (i : Nat) (op : ParcelRead σ V),
      (BINDER_PARCEL_READ_FUNCTIONS android)[i]? = some op → ∀ (p : Parcel σ V) (s : σ)
        (d : uint8_t),
      firstLiteral (linesOf (op p d s).1).head? = (firstLiterals android)[i]? := by
    rw [table_eq]
    simp only [forall_getElem?_cons, forall_getElem?_nil, and_true]
    cases android <;> split_ands <;> intro p s d <;>
      simp only [PARCEL_READ_NO_STATUS_eq, PARCEL_READ_WITH_STATUS_eq, setDataPositionRead_eq,
        enforceInterfaceRead_true_eq, enforceInterfaceRead_false_eq, checkInterfaceRead_true_eq,
        checkInterfaceRead_false_eq, readVoidRead_eq, readInplaceRead_eq, readCStringRead_eq,
        readBlobRead_eq, probe_first, skip_lines] <;>
      rfl
  exact key i op h p s d

theorem index_of_first_line (android : Bool) (i j : Nat) (op1 op2 : ParcelRead σ V)
    (h1 : (BINDER_PARCEL_READ_FUNCTIONS android)[i]? = some op1)
    (h2 : (BINDER_PARCEL_READ_FUNCTIONS android)[j]? = some op2)
    (p1 p2 : Parcel σ V) (s1 s2 : σ) (d1 d2 : uint8_t)
    (hhead : (linesOf (op1 p1 d1 s1).1).head? = (linesOf (op2 p2 d2 s2).1).head?) :
    i = j := by
  have e1 := first_literal_of_entry android i op1 h1 p1 s1 d1
  have e2 := first_literal_of_entry android j op2 h2 p2 s2 d2
  rw [hhead, e2] at e1
  have hi : i < (firstLiterals android).length := by
    have hlt : i < (BINDER_PARCEL_READ_FUNCTIONS android : List (ParcelRead σ V)).length := by
      by_contra hge
      rw [List.getElem?_eq_none (Nat.le_of_not_lt hge)] at h1
      exact Option.noConfusion h1
    rw [table_length] at hlt
    cases android <;> exact hlt
  exact List.getElem?_inj hi (firstLiterals_nodup android) e1.symm

end FirstLine

/-! ## Selection -/

section Claims
variable {σ V : Type}

/-- C1: selection over `BINDER_PARCEL_READ_FUNCTIONS` is total and deterministic: on either
platform the table has 51 entries, so for every selector byte `b` the index
`b % table_size` is `b % 51`, is in range, and holds exactly one operation. -/
theorem selection_total (android : Bool) (b : uint8_t) :
    (BINDER_PARCEL_READ_FUNCTIONS android : List (ParcelRead σ V)).length = 51 ∧
    b.val % (BINDER_PARCEL_READ_FUNCTIONS android : List (ParcelRead σ V)).length
      = b.val % 51 ∧
    b.val % (BINDER_PARCEL_READ_FUNCTIONS android : List (ParcelRead σ V)).length
      < (BINDER_PARCEL_READ_FUNCTIONS android : List (ParcelRead σ V)).length ∧
    ∃! op : ParcelRead σ V,
      (BINDER_PARCEL_READ_FUNCTIONS android)[b.val %
        (BINDER_PARCEL_READ_FUNCTIONS android : List (ParcelRead σ V)).length]? = some op := by
  have hlen := @table_length σ V android
  have hlt : b.val % (BINDER_PARCEL_READ_FUNCTIONS android : List (ParcelRead σ V)).length
      < (BINDER_PARCEL_READ_FUNCTIONS android : List (ParcelRead σ V)).length := by
    rw [hlen]; exact Nat.mod_lt _ (by decide)
  refine ⟨hlen, by rw [hlen], hlt, ?_⟩
  refine ⟨(BINDER_PARCEL_READ_FUNCTIONS android)[b.val %
    (BINDER_PARCEL_READ_FUNCTIONS android : List (ParcelRead σ V)).length], ?_, ?_⟩
  · exact List.getElem?_eq_getElem hlt
  · intro op h
    rw [List.getElem?_eq_getElem hlt] at h
    exact (Option.some.inj h).symm

/-! ## Lengths and positions taken from the scalar byte -/

/-- C3: every length or position taken from the scalar byte is the byte: for every byte
`len` the raw read probe (index 11) makes a scratch vector of exactly `len` bytes and asks
for exactly `len` bytes, the `readInplace` probe (index 12) asks for exactly `len` bytes,
the `readBlob` probe (index 47) for a blob of exactly `len` bytes, the `setDataPosition`
probe (index 4) passes exactly the byte; and no call of any operation of the table asks
for more than 255. -/
theorem scalar_requests_bounded (android : Bool) (p : Parcel σ V) (s : σ) (len : uint8_t) :
    (∃ op, (BINDER_PARCEL_READ_FUNCTIONS android)[11]? = some op ∧
      callsOf (op p len s).1 = [.read (List.replicate len.val 0) len.val] ∧
      (List.replicate len.val (0 : uint8_t)).length = len.val) ∧
    (∃ op, (BINDER_PARCEL_READ_FUNCTIONS android)[12]? = some op ∧
      callsOf (op p len s).1 = [.readInplace len.val]) ∧
    (∃ op, (BINDER_PARCEL_READ_FUNCTIONS android)[47]? = some op ∧
      callsOf (op p len s).1 = [.readBlob len.val]) ∧
    (∃ op, (BINDER_PARCEL_READ_FUNCTIONS android)[4]? = some op ∧
      callsOf (op p len s).1 = [.setDataPosition len.val]) ∧
    (∀ (i : Nat) (op : ParcelRead σ V), (BINDER_PARCEL_READ_FUNCTIONS android)[i]? = some op →
      ∀ c ∈ callsOf (op p len s).1, Call.requested c ≤ 255) := by
  have hlen : len.val ≤ 255 := by omega
  refine ⟨⟨readVoidRead, by rw [table_eq]; rfl, ?_, by simp⟩,
    ⟨readInplaceRead, by rw [table_eq]; rfl, ?_⟩,
    ⟨readBlobRead, by rw [table_eq]; rfl, ?_⟩,
    ⟨setDataPositionRead, by rw [table_eq]; rfl, ?_⟩, ?_⟩
  · rw [readVoidRead_eq, probe_calls]
  · rw [readInplaceRead_eq, probe_calls]
  · rw [readBlobRead_eq, probe_calls]
  · rw [setDataPositionRead_eq, probe_calls]
  · rw [table_eq]
    simp only [forall_getElem?_cons, forall_getElem?_nil, and_true]
    cases android <;> split_ands <;>
      simp only [PARCEL_READ_NO_STATUS_eq, PARCEL_READ_WITH_STATUS_eq, setDataPositionRead_eq,
        enforceInterfaceRead_true_eq, enforceInterfaceRead_false_eq, checkInterfaceRead_true_eq,
        checkInterfaceRead_false_eq, readVoidRead_eq, readInplaceRead_eq, readCStringRead_eq,
        readBlobRead_eq, probe_calls, skip_calls] <;>
      simp [Call.requested, hlen]

/-- Instance of C3: the `readBlob` probe with scalar byte 255 on an empty example buffer. -/
theorem scalar_requests_bounded_witness :
    Call.requested (.readBlob 255) ≤ 255 :=
  (scalar_requests_bounded true sampleParcel ⟨[], 0⟩ 255).2.2.2.2 47 readBlobRead
    (by rw [table_eq]; rfl) (.readBlob 255)
    (by rw [readBlobRead_eq, probe_calls]; exact List.mem_singleton.mpr rfl)

/-! ## The platform without the security token -/

/-- C4: where `__ANDROID__` is not defined, the `enforceInterface` and `checkInterface`
operations (indices 7 and 8) take the buffer and the scalar byte, make no call into the
buffer, log one line each and return; the table is as long as where it is defined, and
every other index holds the same operation on both platforms. -/
theorem platform_without_feature (p : Parcel σ V) (s : σ) (d : uint8_t) :
    (BINDER_PARCEL_READ_FUNCTIONS false : List (ParcelRead σ V))[7]?
      = some (enforceInterfaceRead false) ∧
    enforceInterfaceRead false p d s
      = ([.log ⟨"binder", [.lit "skipping enforceInterface"]⟩], some ((), s)) ∧
    callsOf (enforceInterfaceRead false p d s).1 = [] ∧
    (linesOf (enforceInterfaceRead false p d s).1).length = 1 ∧
    (BINDER_PARCEL_READ_FUNCTIONS false : List (ParcelRead σ V))[8]?
      = some (checkInterfaceRead false) ∧
    checkInterfaceRead false p d s
      = ([.log ⟨"binder", [.lit "skipping checkInterface"]⟩], some ((), s)) ∧
    callsOf (checkInterfaceRead false p d s).1 = [] ∧
    (linesOf (checkInterfaceRead false p d s).1).length = 1 ∧
    (BINDER_PARCEL_READ_FUNCTIONS false : List (ParcelRead σ V)).length
      = (BINDER_PARCEL_READ_FUNCTIONS true : List (ParcelRead σ V)).length ∧
    ∀ i : Nat, i ≠ 7 → i ≠ 8 →
      (BINDER_PARCEL_READ_FUNCTIONS false : List (ParcelRead σ V))[i]?
        = (BINDER_PARCEL_READ_FUNCTIONS true)[i]? := by
  refine ⟨by rw [table_eq]; rfl, rfl, rfl, rfl, by rw [table_eq]; rfl, rfl, rfl, rfl,
    by rw [table_length, table_length], ?_⟩
  intro i h7 h8
  have hset : (BINDER_PARCEL_READ_FUNCTIONS false : List (ParcelRead σ V)) =
      ((BINDER_PARCEL_READ_FUNCTIONS true).set 7 (enforceInterfaceRead false)).set 8
        (checkInterfaceRead false) := by
    rw [table_eq, table_eq]; rfl
  rw [hset, List.getElem?_set_ne (Ne.symm h8), List.getElem?_set_ne (Ne.symm h7)]

/-- Instance of C4: index 0 holds the same operation on both platforms. -/
theorem platform_without_feature_witness :
    (BINDER_PARCEL_READ_FUNCTIONS false : List (ParcelRead Sample Nat))[0]?
      = (BINDER_PARCEL_READ_FUNCTIONS true)[0]? :=
  (platform_without_feature sampleParcel ⟨[], 0⟩ 0).2.2.2.2.2.2.2.2.2 0 (by decide) (by decide)

/-! ## Selector byte 0 -/

/-- C6: selector byte 0 selects the `dataSize` probe without status: for every buffer and
scalar byte it calls `dataSize` and nothing else, having logged
"about to read size_t using dataSize with no status"; when `dataSize` returns it logs
"size_t done " and returns, the buffer being in the state `dataSize` left. -/
theorem dataSize_probe (android : Bool) (p : Parcel σ V) (s : σ) (d : uint8_t) :
    (BINDER_PARCEL_READ_FUNCTIONS android : List (ParcelRead σ V))[(0 : uint8_t).val %
        (BINDER_PARCEL_READ_FUNCTIONS android : List (ParcelRead σ V)).length]?
      = some (PARCEL_READ_NO_STATUS "size_t" "dataSize") ∧
    (PARCEL_READ_NO_STATUS "size_t" "dataSize" p d s).1.take 2
      = [.log ⟨"binder", [.lit "about to read size_t using dataSize with no status"]⟩,
         .call (.noStatus "dataSize")] ∧
    callsOf (PARCEL_READ_NO_STATUS "size_t" "dataSize" p d s).1 = [.noStatus "dataSize"] ∧
    ∀ (v : V) (s1 : σ), p.invoke (.noStatus "dataSize") s = some (v, s1) →
      PARCEL_READ_NO_STATUS "size_t" "dataSize" p d s =
        ([.log ⟨"binder", [.lit "about to read size_t using dataSize with no status"]⟩,
          .call (.noStatus "dataSize"),
          .log ⟨"binder", [.lit "size_t done "]⟩], some ((), s1)) := by
  refine ⟨?_, ?_, ?_, ?_⟩
  · simp only [table_length]
    rw [table_eq]; rfl
  · rw [PARCEL_READ_NO_STATUS_eq, probe_events]
    cases p.invoke (.noStatus "dataSize") s <;> rfl
  · rw [PARCEL_READ_NO_STATUS_eq, probe_calls]
  · intro v s1 h
    rw [PARCEL_READ_NO_STATUS_eq, probe_of_returns p _ _ _ s s1 v h]
    rfl

/-- Instance of C6: selector byte 0 on the example buffer holding the payload `[5]`. -/
theorem dataSize_probe_witness :
    sampleParcel.invoke (.noStatus "dataSize") ⟨[5], 0⟩ = some ((1 : Nat), ⟨[5], 0⟩) ∧
    PARCEL_READ_NO_STATUS "size_t" "dataSize" sampleParcel 0 ⟨[5], 0⟩ =
      ([.log ⟨"binder", [.lit "about to read size_t using dataSize with no status"]⟩,
        .call (.noStatus "dataSize"),
        .log ⟨"binder", [.lit "size_t done "]⟩], some ((), ⟨[5], 0⟩)) :=
  ⟨rfl, (dataSize_probe true sampleParcel ⟨[5], 0⟩ 0).2.2.2 (1 : Nat) ⟨[5], 0⟩ rfl⟩

/-! ## The cursor -/

/-- C7: index 4 is the `setDataPosition` probe: for every buffer and byte `pos` it calls
`setDataPosition` with the position `pos`, unchanged whatever its value, and makes no other
call; whether it returns, and the state the buffer is left in, are those of that call (so
for `pos = 250`, whatever the size of the buffer). -/
theorem setDataPosition_probe (android : Bool) (p : Parcel σ V) (s : σ) (pos : uint8_t) :
    (BINDER_PARCEL_READ_FUNCTIONS android : List (ParcelRead σ V))[4]?
      = some setDataPositionRead ∧
    callsOf (setDataPositionRead p pos s).1 = [.setDataPosition pos.val] ∧
    (setDataPositionRead p pos s).2
      = (p.invoke (.setDataPosition pos.val) s).map (fun x => ((), x.2)) ∧
    linesOf (setDataPositionRead p pos s).1
      = (match p.invoke (.setDataPosition pos.val) s with
         | none => [⟨"binder", [.lit "about to setDataPosition: ", .byte pos]⟩]
         | some _ => [⟨"binder", [.lit "about to setDataPosition: ", .byte pos]⟩,
                      ⟨"binder", [.lit "setDataPosition done"]⟩]) ∧
    callsOf (setDataPositionRead p 250 s).1 = [.setDataPosition 250] ∧
    (setDataPositionRead p 250 s).2
      = (p.invoke (.setDataPosition 250) s).map (fun x => ((), x.2)) := by
  refine ⟨by rw [table_eq]; rfl, ?_, ?_, ?_, ?_, ?_⟩
  · rw [setDataPositionRead_eq, probe_calls]
  · rw [setDataPositionRead_eq, probe_exit]
  · rw [setDataPositionRead_eq, probe_lines]
    cases p.invoke (.setDataPosition pos.val) s <;> rfl
  · rw [setDataPositionRead_eq, probe_calls]; rfl
  · rw [setDataPositionRead_eq, probe_exit]; rfl

/-! ## The interface name -/

/-- C10: where `__ANDROID__` is defined, index 7 is the `enforceInterface` probe and the
name it passes to `enforceInterface` has the length of the scalar byte: for every byte
`len` the name consists of exactly `len` characters, each of them `a`; it is empty for
`len = 0` and never longer than 255. -/
theorem enforceInterface_name (p : Parcel σ V) (s : σ) (len : uint8_t) :
    (BINDER_PARCEL_READ_FUNCTIONS true : List (ParcelRead σ V))[7]?
      = some (enforceInterfaceRead true) ∧
    (∃ name : String,
      callsOf (enforceInterfaceRead true p len s).1 = [.enforceInterface name] ∧
      name.data = List.replicate len.val 'a' ∧
      name.length = len.val ∧
      (∀ ch ∈ name.data, ch = 'a') ∧
      name.length ≤ 255) ∧
    callsOf (enforceInterfaceRead true p 0 s).1 = [.enforceInterface ""] := by
  refine ⟨by rw [table_eq]; rfl, ⟨String.mk (List.replicate len.val 'a'), ?_, rfl, ?_, ?_, ?_⟩, ?_⟩
  · rw [enforceInterfaceRead_true_eq, probe_calls]
  · simp [String.length]
  · intro ch hch
    exact List.eq_of_mem_replicate hch
  · have : len.val < 256 := len.isLt
    simp only [String.length, List.length_replicate]
    omega
  · rw [enforceInterfaceRead_true_eq, probe_calls]; rfl

/-- Instance of C10 (the statement that every character of the name is `a`): scalar
byte 3. -/
theorem enforceInterface_name_witness :
    ∃ name : String,
      callsOf (enforceInterfaceRead true sampleParcel 3 ⟨[], 0⟩).1 = [.enforceInterface name] ∧
      name = "aaa" :=
  match (enforceInterface_name sampleParcel ⟨[], 0⟩ 3).2.1 with
  | ⟨name, hcall, hdata, _, _, _⟩ => ⟨name, hcall, String.ext hdata⟩

/-! ## One call per operation -/

/-- C8: no operation retries.  For every operation of the table and every scalar byte,
where `__ANDROID__` is defined one run makes exactly one call into the buffer, the same
call whatever the buffer and whatever that call returns; on either platform no run makes
two calls, and every operation but those at indices 7 and 8 makes exactly one. -/
theorem one_call_per_operation (android : Bool) (i : Nat) (op : ParcelRead σ V)
    (h : (BINDER_PARCEL_READ_FUNCTIONS android)[i]? = some op) (d : uint8_t) :
    (android = true → ∃ c : Call, ∀ (p : Parcel σ V) (s : σ), callsOf (op p d s).1 = [c]) ∧
    (∀ (p : Parcel σ V) (s : σ), (callsOf (op p d s).1).length ≤ 1) ∧
    (i ≠ 7 → i ≠ 8 → ∃ c : Call, ∀ (p : Parcel σ V) (s : σ), callsOf (op p d s).1 = [c]) := by
  have key : ∀ (i : Nat) (op : ParcelRead σ V),
      (BINDER_PARCEL_READ_FUNCTIONS android)[i]? = some op → ∀ d : uint8_t,
      (android = true → ∃ c : Call, ∀ (p : Parcel σ V) (s : σ), callsOf (op p d s).1 = [c]) ∧
      (∀ (p : Parcel σ V) (s : σ), (callsOf (op p d s).1).length ≤ 1) ∧
      (i ≠ 7 → i ≠ 8 →
        ∃ c : Call, ∀ (p : Parcel σ V) (s : σ), callsOf (op p d s).1 = [c]) := by
    rw [table_eq]
    simp only [forall_getElem?_cons, forall_getElem?_nil, and_true]
    cases android <;> split_ands <;> intro d <;>
      simp only [PARCEL_READ_NO_STATUS_eq, PARCEL_READ_WITH_STATUS_eq, setDataPositionRead_eq,
        enforceInterfaceRead_true_eq, enforceInterfaceRead_false_eq, checkInterfaceRead_true_eq,
        checkInterfaceRead_false_eq, readVoidRead_eq, readInplaceRead_eq, readCStringRead_eq,
        readBlobRead_eq, probe_calls, skip_calls] <;>
      first
        | exact ⟨fun _ => ⟨_, fun _ _ => rfl⟩, fun _ _ => Nat.le_refl _, fun _ _ => ⟨_, fun _ _ => rfl⟩⟩
        | exact ⟨fun hf => Bool.noConfusion hf, fun _ _ => Nat.zero_le _, fun h7 _ => absurd rfl h7⟩
        | exact ⟨fun hf => Bool.noConfusion hf, fun _ _ => Nat.zero_le _, fun _ h8 => absurd rfl h8⟩
  exact key i op h d

/-- Instance of C8: the raw read probe (index 11) with scalar byte 3 on the example buffer
holding the payload `[5]` makes one call. -/
theorem one_call_per_operation_witness :
    (callsOf (readVoidRead sampleParcel 3 ⟨[5], 0⟩).1).length ≤ 1 :=
  (one_call_per_operation true 11 readVoidRead (by rw [table_eq]; rfl) 3).2.1
    sampleParcel ⟨[5], 0⟩

/-! ## No failure of the harness itself -/

/-- C9: no operation of the table has a failure of its own.  For every operation, buffer
(one built from an empty payload among them) and scalar byte, the run returns exactly when
every call it makes into the buffer returns; and the raw read probe (index 11) with
`len = 0` hands the buffer an empty scratch vector and the count 0. -/
theorem returns_when_buffer_returns (android : Bool) (i : Nat) (op : ParcelRead σ V)
    (h : (BINDER_PARCEL_READ_FUNCTIONS android)[i]? = some op)
    (p : Parcel σ V) (s : σ) (d : uint8_t) :
    ((op p d s).2.isSome ↔ ∀ c ∈ callsOf (op p d s).1, (p.invoke c s).isSome) ∧
    (BINDER_PARCEL_READ_FUNCTIONS android : List (ParcelRead σ V))[11]? = some readVoidRead ∧
    callsOf (readVoidRead p 0 s).1 = [.read [] 0] := by
  have key : ∀ (i : Nat) (op : ParcelRead σ V),
      (BINDER_PARCEL_READ_FUNCTIONS android)[i]? = some op → ∀ (p : Parcel σ V) (s : σ)
        (d : uint8_t),
      ((op p d s).2.isSome ↔ ∀ c ∈ callsOf (op p d s).1, (p.invoke c s).isSome) := by
    rw [table_eq]
    simp only [forall_getElem?_cons, forall_getElem?_nil, and_true]
    cases android <;> split_ands <;> intro p s d <;>
      simp only [PARCEL_READ_NO_STATUS_eq, PARCEL_READ_WITH_STATUS_eq, setDataPositionRead_eq,
        enforceInterfaceRead_true_eq, enforceInterfaceRead_false_eq, checkInterfaceRead_true_eq,
        checkInterfaceRead_false_eq, readVoidRead_eq, readInplaceRead_eq, readCStringRead_eq,
        readBlobRead_eq, probe_calls, skip_calls, probe_exit, skip_exit] <;>
      simp
  refine ⟨key i op h p s d, by rw [table_eq]; rfl, ?_⟩
  rw [readVoidRead_eq, probe_calls]; rfl

/-- Instance of C9: the raw read probe with `len = 0` on the example buffer built from an
empty payload returns. -/
theorem returns_when_buffer_returns_witness :
    (readVoidRead sampleParcel 0 ⟨[], 0⟩).2.isSome = true :=
  (returns_when_buffer_returns true 11 readVoidRead (by rw [table_eq]; rfl)
    sampleParcel ⟨[], 0⟩ 0).1.mpr (by
      rw [readVoidRead_eq, probe_calls]
      intro c hc
      rw [List.mem_singleton.mp hc]
      rfl)

/-! ## What the log shows of the reply -/

/-- C2, as stated, fails: the `readCString` probe (index 35) returns no status, and on
two buffers whose C strings differ ("h" and "i") it writes different lines. -/
theorem readCString_logs_decoded_value :
    ¬ (∀ (android : Bool) (i : Nat) (op : ParcelRead Sample Nat),
        (BINDER_PARCEL_READ_FUNCTIONS android)[i]? = some op →
        ∀ (p1 p2 : Parcel Sample Nat) (s1 s2 : Sample) (d : uint8_t),
          (∀ c ∈ callsOf (op p1 d s1).1, p1.statusOf c s1 = p2.statusOf c s2) →
          linesOf (op p1 d s1).1 = linesOf (op p2 d s2).1) := by
  intro hall
  have h := hall true 35 readCStringRead (by rw [table_eq]; rfl) sampleParcel sampleParcel
    ⟨[104, 0], 0⟩ ⟨[105, 0], 0⟩ 0 (by
      rw [readCStringRead_eq, probe_calls]
      intro c hc
      rw [List.mem_singleton.mp hc]
      rfl)
  rw [readCStringRead_eq, probe_lines, probe_lines] at h
  revert h
  decide

/-- The `readInplace` probe (index 12) logs the pointer it is given: on two buffers whose
replies differ in nothing but the pointer its lines differ. -/
theorem readInplace_logs_pointer :
    (BINDER_PARCEL_READ_FUNCTIONS true : List (ParcelRead Sample Nat))[12]?
      = some readInplaceRead ∧
    sampleParcel.statusOf (.readInplace 1) ⟨[7, 7], 0⟩
      = sampleParcel.statusOf (.readInplace 1) ⟨[7, 7], 1⟩ ∧
    linesOf (readInplaceRead sampleParcel 1 ⟨[7, 7], 0⟩).1
      ≠ linesOf (readInplaceRead sampleParcel 1 ⟨[7, 7], 1⟩).1 := by
  refine ⟨by rw [table_eq]; rfl, rfl, ?_⟩
  rw [readInplaceRead_eq, probe_lines, probe_lines]
  decide

/-- The `enforceInterface` probe (index 7, `__ANDROID__` defined) logs the `bool` it is
given: on two buffers of which one accepts the name and one does not its lines differ,
though neither call returns a `status_t`. -/
theorem enforceInterface_logs_verdict :
    (BINDER_PARCEL_READ_FUNCTIONS true : List (ParcelRead Sample Nat))[7]?
      = some (enforceInterfaceRead true) ∧
    sampleParcel.statusOf (.enforceInterface "a") ⟨[7], 0⟩
      = sampleParcel.statusOf (.enforceInterface "a") ⟨[], 0⟩ ∧
    linesOf (enforceInterfaceRead true sampleParcel 1 ⟨[7], 0⟩).1
      ≠ linesOf (enforceInterfaceRead true sampleParcel 1 ⟨[], 0⟩).1 := by
  refine ⟨by rw [table_eq]; rfl, rfl, ?_⟩
  rw [enforceInterfaceRead_true_eq, probe_lines, probe_lines]
  decide

/-- C2, amended: for every operation of the table but the `readInplace` probe (index 12)
and the `readCString` probe (index 35), the lines logged depend on the buffer only through
whether the call returns, the `status_t` it returns and, for `enforceInterface` and
`checkInterface`, the `bool` it returns: two buffers that agree on these, run with the
same scalar byte, give the same lines, whatever was decoded. -/
theorem log_shows_only_status (android : Bool) (i : Nat) (op : ParcelRead σ V)
    (h : (BINDER_PARCEL_READ_FUNCTIONS android)[i]? = some op)
    (hi12 : i ≠ 12) (hi35 : i ≠ 35)
    (p1 p2 : Parcel σ V) (s1 s2 : σ) (d : uint8_t)
    (hagree : ∀ c ∈ callsOf (op p1 d s1).1,
      p1.statusOf c s1 = p2.statusOf c s2 ∧ p1.verdictOf c s1 = p2.verdictOf c s2) :
    linesOf (op p1 d s1).1 = linesOf (op p2 d s2).1 := by
  have key : ∀ (i : Nat) (op : ParcelRead σ V),
      (BINDER_PARCEL_READ_FUNCTIONS android)[i]? = some op → i ≠ 12 → i ≠ 35 →
      ∀ (p1 p2 : Parcel σ V) (s1 s2 : σ) (d : uint8_t),
      (∀ c ∈ callsOf (op p1 d s1).1,
        p1.statusOf c s1 = p2.statusOf c s2 ∧ p1.verdictOf c s1 = p2.verdictOf c s2) →
      linesOf (op p1 d s1).1 = linesOf (op p2 d s2).1 := by
    rw [table_eq]
    simp only [forall_getElem?_cons, forall_getElem?_nil, and_true]
    cases android <;> split_ands <;> intro hi12 hi35 p1 p2 s1 s2 d <;>
      simp only [PARCEL_READ_NO_STATUS_eq, PARCEL_READ_WITH_STATUS_eq, setDataPositionRead_eq,
        enforceInterfaceRead_true_eq, enforceInterfaceRead_false_eq, checkInterfaceRead_true_eq,
        checkInterfaceRead_false_eq, readVoidRead_eq, readInplaceRead_eq, readCStringRead_eq,
        readBlobRead_eq, probe_calls, skip_calls, skip_lines, List.mem_singleton, forall_eq] <;>
      first
        | exact absurd rfl hi12
        | exact absurd rfl hi35
        | exact fun _ => trivial
        | exact fun hag => probe_lines_agree p1 p2 _ _ _ s1 s2 hag.1 hag.2 (by
            intro r1 r2 h1 h2
            simp_all [Call.status?, Call.verdict?])
  exact key i op h hi12 hi35 p1 p2 s1 s2 d hagree

/-- Instance of C2, amended: the `readInt32` probe with status (index 13) on the example
buffers holding `[1]` and `[2]`: the values read differ, the status 0 and the lines do
not. -/
theorem log_shows_only_status_witness :
    linesOf ((PARCEL_READ_WITH_STATUS "int32_t" "readInt32" : ParcelRead Sample Nat)
        sampleParcel 0 ⟨[1], 0⟩).1
      = linesOf ((PARCEL_READ_WITH_STATUS "int32_t" "readInt32" : ParcelRead Sample Nat)
        sampleParcel 0 ⟨[2], 0⟩).1 :=
  log_shows_only_status true 13 _ (by rw [table_eq]; rfl) (by decide) (by decide)
    sampleParcel sampleParcel ⟨[1], 0⟩ ⟨[2], 0⟩ 0 (by
      rw [PARCEL_READ_WITH_STATUS_eq, probe_calls]
      intro c hc
      rw [List.mem_singleton.mp hc]
      exact ⟨rfl, rfl⟩)

/-! ## The lines of a run -/

/-- C5, as stated, fails: where `__ANDROID__` is not defined the operation at index 7
returns having written one line, not two. -/
theorem skipped_probe_logs_one_line :
    ¬ (∀ (android : Bool) (i : Nat) (op : ParcelRead Sample Nat),
        (BINDER_PARCEL_READ_FUNCTIONS android)[i]? = some op →
        ∀ (p : Parcel Sample Nat) (s : Sample) (d : uint8_t),
          (op p d s).2.isSome = true → (linesOf (op p d s).1).length = 2) := by
  intro hall
  have h := hall false 7 (enforceInterfaceRead false) (by rw [table_eq]; rfl)
    sampleParcel ⟨[], 0⟩ 0 rfl
  exact absurd h (by decide)

/-- C5, amended: a run that returns consists of a line, the one call into the buffer and
a second line, for every operation of the table where `__ANDROID__` is defined and for
every operation but those at indices 7 and 8 where it is not; there these two write a
single line, a literal, and make no call.  The second line is a literal, alone or followed
by one operand: the `status_t` the call returned, the `bool` it returned, or, at index 12
a pointer and at index 35 a C string.  On either platform the first line tells the
operations apart: two entries of the table whose first lines are equal have the same
index. -/
theorem lines_around_call (android : Bool) (i : Nat) (op : ParcelRead σ V)
    (h : (BINDER_PARCEL_READ_FUNCTIONS android)[i]? = some op)
    (p : Parcel σ V) (s : σ) (d : uint8_t) (hret : (op p d s).2.isSome = true) :
    (if android = false ∧ (i = 7 ∨ i = 8) then
      ∃ m : String, (op p d s).1 = [.log ⟨"binder", [.lit m]⟩]
    else
      ∃ (l1 : List Piece) (c : Call) (m : String) (rest : List Piece),
        (op p d s).1 = [.log ⟨"binder", l1⟩, .call c, .log ⟨"binder", .lit m :: rest⟩] ∧
        (rest = [] ∨
         (∃ st : status_t, rest = [.status st] ∧ p.statusOf c s = some (some st)) ∨
         (∃ b : Bool, rest = [.bool b] ∧ p.verdictOf c s = some (some b)) ∨
         (i = 12 ∧ ∃ r : Nat, rest = [.ptr r]) ∨
         (i = 35 ∧ ∃ str : String, rest = [.cstr str]))) ∧
    (∀ (j : Nat) (op2 : ParcelRead σ V),
      (BINDER_PARCEL_READ_FUNCTIONS android)[j]? = some op2 →
      ∀ (p2 : Parcel σ V) (s2 : σ) (d2 : uint8_t),
        (linesOf (op p d s).1).head? = (linesOf (op2 p2 d2 s2).1).head? → i = j) := by
  have key : ∀ (i : Nat) (op : ParcelRead σ V),
      (BINDER_PARCEL_READ_FUNCTIONS android)[i]? = some op →
      ∀ (p : Parcel σ V) (s : σ) (d : uint8_t), (op p d s).2.isSome = true →
      (if android = false ∧ (i = 7 ∨ i = 8) then
        ∃ m : String, (op p d s).1 = [.log ⟨"binder", [.lit m]⟩]
      else
        ∃ (l1 : List Piece) (c : Call) (m : String) (rest : List Piece),
          (op p d s).1 = [.log ⟨"binder", l1⟩, .call c, .log ⟨"binder", .lit m :: rest⟩] ∧
          (rest = [] ∨
           (∃ st : status_t, rest = [.status st] ∧ p.statusOf c s = some (some st)) ∨
           (∃ b : Bool, rest = [.bool b] ∧ p.verdictOf c s = some (some b)) ∨
           (i = 12 ∧ ∃ r : Nat, rest = [.ptr r]) ∨
           (i = 35 ∧ ∃ str : String, rest = [.cstr str]))) := by
    rw [table_eq]
    simp only [forall_getElem?_cons, forall_getElem?_nil, and_true]
    cases android <;> split_ands <;> intro p s d <;>
      simp only [PARCEL_READ_NO_STATUS_eq, PARCEL_READ_WITH_STATUS_eq, setDataPositionRead_eq,
        enforceInterfaceRead_true_eq, enforceInterfaceRead_false_eq, checkInterfaceRead_true_eq,
        checkInterfaceRead_false_eq, readVoidRead_eq, readInplaceRead_eq, readCStringRead_eq,
        readBlobRead_eq] <;>
      intro hret <;>
      first
        | (rw [if_pos (by simp)]
           exact ⟨_, rfl⟩)
        | (obtain ⟨r, t, hinv, hev⟩ := probe_returned _ _ _ _ _ hret
           rw [if_neg (by simp)]
           exact ⟨_, _, _, _, hev, by
             simp [Parcel.statusOf, Parcel.verdictOf, hinv, Call.status?, Call.verdict?]⟩)
  exact ⟨key i op h p s d hret, fun j op2 h2 p2 s2 d2 hhead =>
    index_of_first_line android i j op op2 h h2 p p2 s s2 d d2 hhead⟩

/-- Instance of C5, amended: the `readBlob` probe (index 47) with scalar byte 2 on the
example buffer holding `[1, 2, 3]`. -/
theorem lines_around_call_witness :
    (readBlobRead sampleParcel 2 ⟨[1, 2, 3], 0⟩).2.isSome = true ∧
    ∃ (l1 : List Piece) (c : Call) (m : String) (rest : List Piece),
      (readBlobRead sampleParcel 2 ⟨[1, 2, 3], 0⟩).1
        = [.log ⟨"binder", l1⟩, .call c, .log ⟨"binder", .lit m :: rest⟩] :=
  ⟨rfl,
    match (lines_around_call true 47 readBlobRead (by rw [table_eq]; rfl)
      sampleParcel ⟨[1, 2, 3], 0⟩ 2 rfl).1 with
    | ⟨l1, c, m, rest, hev, _⟩ => ⟨l1, c, m, rest, hev⟩⟩

end Claims

end BinderFuzzer
